import Mathlib

/-!
# Verification of `src/js/src/communication.js` (opentok/accelerator-core)

A shallow embedding of the communication module.  The module keeps a handful
of module-level variables (`session`, `accPack`, `callProperties`,
`screenProperties`, `streamContainers`, `autoSubscribe`, `connectionLimit`,
`active`) and delegates registries to an external `state` collaborator.  We
model the whole mutable picture as a single record `CommState`, and every
operation as a pure function on it.  Asynchronous SDK callbacks (publisher
creation, subscriber creation) are modelled by passing their eventual outcome
as an explicit argument; a promise that is never resolved nor rejected is the
`CallOutcome.pending` value.  Observable side effects (events triggered
through the `accPack` event bus, log lines, SDK calls made on the session)
are accumulated in lists inside the state.
-/

namespace Communication

/-- An SDK (OpenTok) error: a numeric code and a message, the two fields the
module reads (`error.code`, `error.message`). -/
structure OTError where
  code : Nat
  message : String
deriving DecidableEq, Repr

/-- A remote stream as the module sees it: its `id` and its `videoType`
(`"camera"` or `"screen"`). -/
structure Stream where
  id : String
  videoType : String
deriving DecidableEq, Repr

/-- A subscriber handle: its own id, the id of the stream it subscribes to,
and the stream's video type. -/
structure Subscriber where
  id : String
  streamId : String
  videoType : String
deriving DecidableEq, Repr

/-- UI properties passed to the SDK (`defaultCallProperties` in the source). -/
structure Props where
  insertMode : String
  width : String
  height : String
  showControls : Bool
  buttonDisplayMode : String
  videoSource : Option String
deriving DecidableEq, Repr

/-- `defaultCallProperties` from the source. -/
def defaultCallProperties : Props :=
  { insertMode := "append", width := "100%", height := "100%",
    showControls := false, buttonDisplayMode := "off", videoSource := none }

/-- The publisher/subscriber snapshot returned by `state.getPubSub()`:
publishers and subscribers keyed by stream kind.  Publishers are represented
by their ids. -/
structure PubSub where
  pubCamera : List String
  pubScreen : List String
  subCamera : List Subscriber
  subScreen : List Subscriber
deriving DecidableEq, Repr

/-- Payload of an application-level event triggered through `accPack`. -/
inductive EventPayload where
  | empty : EventPayload
  | message : String → EventPayload
  | pubSub : PubSub → EventPayload
  | subAndAll : String → EventPayload
  | subscriber : String → EventPayload
deriving DecidableEq, Repr

/-- An event triggered through the `accPack` event bus. -/
structure Event where
  name : String
  payload : EventPayload
deriving DecidableEq, Repr

/-- The full mutable picture of the module: the module-level variables of
`communication.js`, the registries owned by the external `state`
collaborator, and the observable effect trails (events, logs, SDK calls). -/
structure CommState where
  session : Option String
  accPack : Option String
  streamContainers : Option String
  callProperties : Props
  screenProperties : Props
  connectionLimit : Option Nat
  autoSubscribe : Bool
  active : Bool
  streams : List Stream
  streamMap : List (String × String)
  pubCamera : List String
  pubScreen : List String
  subCamera : List Subscriber
  subScreen : List Subscriber
  events : List Event
  logs : List String
  listeners : List String
  sdkSubscribed : List String
  sdkPublished : List String
  sdkUnpublished : List String
deriving DecidableEq, Repr

/-- `triggerEvent`: trigger an event through the API layer (`accPack`). -/
def triggerEvent (st : CommState) (name : String) (payload : EventPayload) : CommState :=
  { st with events := st.events ++ [⟨name, payload⟩] }

/-- A `logging.log` / `logging.error` / `logging.message` entry appended to
the log trail. -/
def logLine (st : CommState) (s : String) : CommState :=
  { st with logs := st.logs ++ [s] }

/-- Modelled from the spec: `properCase` from the external `util` module
(not among the sources) upper-cases the first letter of a type name, giving
the event suffixes `Camera` / `Screen` used in `subscribeTo<Type>` and
`unsubscribeFrom<Type>`. -/
def properCase (s : String) : String := s.capitalize

/-- Lookup in an association list, as `streamMap[stream.id]` does on the map
object kept by the external `state` collaborator. -/
def alistLookup (m : List (String × String)) (k : String) : Option String :=
  (m.find? (fun p => p.1 == k)).map (fun p => p.2)

/-- Modelled from the spec: `state.getStreams()` — the registry of currently
known remote streams. -/
def getStreams (st : CommState) : List Stream := st.streams

/-- The camera streams used by `ableToJoin`:
`Object.values(state.getStreams()).filter(s => s.videoType === 'camera')`. -/
def cameraStreams (st : CommState) : List Stream :=
  (getStreams st).filter (fun s => s.videoType == "camera")

/-- `ableToJoin`: whether the party may join given the connection limit.
`!connectionLimit` in the source is a JS falsy check, true both when the
limit is `null` and when it is `0`. -/
def ableToJoin (st : CommState) : Bool :=
  match st.connectionLimit with
  | none => true
  | some n => if n == 0 then true else (cameraStreams st).length < n

/-- Modelled from the spec: `state.addPublisher('camera', publisher)` —
registers a publisher handle under the camera kind. -/
def addPublisher (st : CommState) (pubId : String) : CommState :=
  { st with pubCamera := st.pubCamera ++ [pubId] }

/-- Modelled from the spec: `state.addSubscriber(subscriber)` — registers the
subscriber under its stream kind and records its stream id in the stream map,
which is what makes `subscribe` idempotent by stream id. -/
def addSubscriber (st : CommState) (sub : Subscriber) : CommState :=
  let st := { st with streamMap := st.streamMap ++ [(sub.streamId, sub.id)] }
  if sub.videoType == "screen" then { st with subScreen := st.subScreen ++ [sub] }
  else { st with subCamera := st.subCamera ++ [sub] }

/-- Modelled from the spec: `state.getPubSub()` — the aggregated
publisher/subscriber snapshot. -/
def getPubSub (st : CommState) : PubSub :=
  ⟨st.pubCamera, st.pubScreen, st.subCamera, st.subScreen⟩

/-- Modelled from the spec: `state.removeStream(stream)` — removes the stream
from the stream registry. -/
def removeStream (st : CommState) (stream : Stream) : CommState :=
  { st with streams := st.streams.filter (fun t => t.id != stream.id) }

/-- Modelled from the spec: `state.removeAllPublishers()`. -/
def removeAllPublishers (st : CommState) : CommState :=
  { st with pubCamera := [], pubScreen := [] }

/-- Modelled from the spec: `state.removeAllSubscribers()`. -/
def removeAllSubscribers (st : CommState) : CommState :=
  { st with subCamera := [], subScreen := [] }

/-- `publish`: create a camera publisher and update state.  The outcome of the
asynchronous `createPublisher` SDK callback is passed as `res` (`.ok` carries
the created publisher's handle id).  Returns the new state and the promise
outcome: `none` = resolved, `some e` = rejected with `e`. -/
def publish (st : CommState) (res : Except OTError String) : CommState × Option OTError :=
  match res with
  | .ok pubId =>
    let st := addPublisher st pubId
    let st := { st with sdkPublished := st.sdkPublished ++ [pubId] }
    let st := logLine st "log:startCall:success"
    (st, none)
  | .error e =>
    let st := logLine st "log:startCall:fail"
    let errorMessage := if e.code == 1010 then "Check your network connection" else e.message
    let st := triggerEvent st "error" (.message errorMessage)
    (st, some e)

/-- `subscribe`: subscribe to a stream and update the state.  `subId` is the
handle id the SDK assigns to the new subscriber and `res` the outcome of the
asynchronous `session.subscribe` callback (`none` = success).  Container
resolution and the UI options passed to the SDK have no observable effect in
the module and are not tracked.  Returns the new state and the promise
outcome (`none` = resolved). -/
def subscribe (st : CommState) (stream : Stream) (subId : String)
    (res : Option OTError) : CommState × Option OTError :=
  let st := logLine st "log:subscribe:attempt"
  if (alistLookup st.streamMap stream.id).isSome then
    (st, none)
  else
    let st := { st with sdkSubscribed := st.sdkSubscribed ++ [stream.id] }
    match res with
    | some e =>
      let st := logLine st "log:subscribe:fail"
      (st, some e)
    | none =>
      let sub : Subscriber := ⟨subId, stream.id, stream.videoType⟩
      let st := addSubscriber st sub
      let st := triggerEvent st ("subscribeTo" ++ properCase stream.videoType) (.subAndAll subId)
      let st := if stream.videoType == "screen"
        then triggerEvent st "startViewingSharedScreen" (.subscriber subId) else st
      let st := logLine st "log:subscribe:success"
      (st, none)

/-- The options object handed to `init`.  Object-valued collaborators are
represented by optional handle ids — in JS an object is always truthy, so
`Option.isSome` is exactly the `!options[option]` presence check. -/
structure Options where
  session : Option String
  publishers : Option String
  subscribers : Option String
  streams : Option String
  accPack : Option String
  streamContainers : Option String
  callProperties : Option Props
  screenProperties : Option Props
  connectionLimit : Option Nat
  autoSubscribe : Option Bool
deriving DecidableEq, Repr

/-- The `requiredOptions` list from `validateOptions`, paired with the
presence of each field in a given options object. -/
def requiredPresence (o : Options) : List (String × Bool) :=
  [("session", o.session.isSome), ("publishers", o.publishers.isSome),
   ("subscribers", o.subscribers.isSome), ("streams", o.streams.isSome),
   ("accPack", o.accPack.isSome)]

/-- The body of the `requiredOptions.forEach` loop in `validateOptions`:
`if (!options[option]) logging.error(option + ' is a required option.')`. -/
def logMissing (st : CommState) (p : String × Bool) : CommState :=
  if p.2 then st else logLine st ("error:" ++ p.1 ++ " is a required option.")

/-- `validateOptions`: log an error for every missing required option, then
assign the module-level configuration.  `options.connectionLimit || null`
maps every falsy value (absent or `0`) to `null`; `autoSubscribe` defaults to
`true` only when the property is absent. -/
def validateOptions (st : CommState) (o : Options) : CommState :=
  let st := (requiredPresence o).foldl logMissing st
  { st with
    session := o.session
    accPack := o.accPack
    streamContainers := o.streamContainers
    callProperties := o.callProperties.getD defaultCallProperties
    connectionLimit :=
      match o.connectionLimit with
      | some n => if n == 0 then none else some n
      | none => none
    autoSubscribe := o.autoSubscribe.getD true
    screenProperties :=
      o.screenProperties.getD { defaultCallProperties with videoSource := some "window" } }

/-- `createEventListeners`: register the `streamCreated` / `streamDestroyed`
listeners on the event bus. -/
def createEventListeners (st : CommState) : CommState :=
  { st with listeners := st.listeners ++ ["streamCreated", "streamDestroyed"] }

/-- `init`: validate the options, register the listeners, resolve.  The
returned outcome is `none` = resolved (the promise executor calls `resolve()`
unconditionally). -/
def init (st : CommState) (o : Options) : CommState × Option OTError :=
  let st := validateOptions st o
  let st := createEventListeners st
  (st, none)

/-- `onStreamCreated`: `active && autoSubscribe && subscribe(stream)`. -/
def onStreamCreated (st : CommState) (stream : Stream) (subId : String)
    (res : Option OTError) : CommState :=
  if st.active && st.autoSubscribe then (subscribe st stream subId res).1 else st

/-- `onStreamDestroyed`: remove the stream from the registry, emit the legacy
`endViewingSharedScreen` event for screen streams, and emit
`unsubscribeFrom<Type>` with the publisher/subscriber snapshot. -/
def onStreamDestroyed (st : CommState) (stream : Stream) : CommState :=
  let st := removeStream st stream
  let type := stream.videoType
  let st := if type == "screen" then triggerEvent st "endViewingSharedScreen" .empty else st
  triggerEvent st ("unsubscribeFrom" ++ properCase type) (.pubSub (getPubSub st))

/-- The initial subscriptions issued by `startCall`:
`Object.keys(streams).map(id => subscribe(streams[id]))` followed by
`Promise.all`.  Each subscription's SDK outcome is `subRes` of its stream id
and its assigned subscriber handle id is `mkSubId` of its stream id.  Returns
the state after every subscription has settled, and whether all of them
succeeded (`Promise.all` resolved). -/
def subscribeAll (st : CommState) (streams : List Stream) (mkSubId : String → String)
    (subRes : String → Option OTError) : CommState × Bool :=
  match streams with
  | [] => (st, true)
  | s :: rest =>
    let r := subscribe st s (mkSubId s.id) (subRes s.id)
    let r2 := subscribeAll r.1 rest mkSubId subRes
    (r2.1, r.2.isNone && r2.2)

/-- The observable settlement of the promise returned by `startCall`:
resolved with the aggregated snapshot, rejected with an error message, or
never settled at all. -/
inductive CallOutcome where
  | resolved : PubSub → CallOutcome
  | rejected : String → CallOutcome
  | pending : CallOutcome
deriving DecidableEq, Repr

/-- `startCall`: reject when the connection limit is reached; otherwise
publish the local camera, subscribe to every known stream, and on full
success emit `startCall`, mark active and resolve.  Two paths leave the
returned promise unsettled (`.pending`): a `publish()` rejection — the
`.then` chain inside `startCall` has no rejection handler — and a failure of
any initial subscription, whose `.catch` only logs and never calls
`resolve` or `reject`. -/
def startCall (st : CommState) (pubRes : Except OTError String)
    (mkSubId : String → String) (subRes : String → Option OTError) :
    CommState × CallOutcome :=
  let st := logLine st "log:startCall:attempt"
  if !(ableToJoin st) then
    let errorMessage := "Session has reached its connection limit"
    let st := triggerEvent st "error" (.message errorMessage)
    let st := logLine st "log:startCall:fail"
    (st, .rejected errorMessage)
  else
    let pr := publish st pubRes
    match pr.2 with
    | some _ => (pr.1, .pending)
    | none =>
      let streams := getStreams pr.1
      let sa := subscribeAll pr.1 streams mkSubId subRes
      if sa.2 then
        let pubSubData := getPubSub sa.1
        let st := triggerEvent sa.1 "startCall" (.pubSub pubSubData)
        let st := { st with active := true }
        (st, .resolved pubSubData)
      else
        let st := logLine sa.1 "message:Failed to subscribe to all existing streams"
        (st, .pending)

/-- `endCall`: unpublish every camera and screen publisher from the session,
clear both registries, mark inactive. -/
def endCall (st : CommState) : CommState :=
  let st := logLine st "log:endCall:attempt"
  let st := { st with sdkUnpublished := st.sdkUnpublished ++ st.pubCamera ++ st.pubScreen }
  let st := removeAllPublishers st
  let st := removeAllSubscribers st
  let st := { st with active := false }
  logLine st "log:endCall:success"

/-! ## Concrete states used to instantiate the theorems -/

/-- A fully initialized state with empty registries. -/
def st0 : CommState :=
  { session := some "sess", accPack := some "acc", streamContainers := some "sc",
    callProperties := defaultCallProperties,
    screenProperties := { defaultCallProperties with videoSource := some "window" },
    connectionLimit := none, autoSubscribe := true, active := false,
    streams := [], streamMap := [], pubCamera := [], pubScreen := [],
    subCamera := [], subScreen := [], events := [], logs := [], listeners := [],
    sdkSubscribed := [], sdkPublished := [], sdkUnpublished := [] }

/-- A state with one known remote camera stream. -/
def stOneStream : CommState := { st0 with streams := [⟨"s1", "camera"⟩] }

/-- A state with one registered camera publisher and one camera subscriber. -/
def stOnePub : CommState :=
  { st0 with pubCamera := ["p1"], subCamera := [⟨"sub1", "s1", "camera"⟩],
             active := true }

/-- A complete options object. -/
def exOptions : Options :=
  { session := some "sess", publishers := some "pubs", subscribers := some "subs",
    streams := some "strs", accPack := some "acc", streamContainers := some "sc",
    callProperties := none, screenProperties := none,
    connectionLimit := some 1, autoSubscribe := none }

/-! ## Projection lemmas for the state helpers -/

@[simp] theorem logLine_logs (st : CommState) (x : String) :
    (logLine st x).logs = st.logs ++ [x] := rfl

@[simp] theorem logLine_streamMap (st : CommState) (x : String) :
    (logLine st x).streamMap = st.streamMap := rfl

@[simp] theorem logLine_events (st : CommState) (x : String) :
    (logLine st x).events = st.events := rfl

@[simp] theorem logLine_active (st : CommState) (x : String) :
    (logLine st x).active = st.active := rfl

@[simp] theorem logLine_streams (st : CommState) (x : String) :
    (logLine st x).streams = st.streams := rfl

@[simp] theorem logLine_connectionLimit (st : CommState) (x : String) :
    (logLine st x).connectionLimit = st.connectionLimit := rfl

@[simp] theorem logLine_pubCamera (st : CommState) (x : String) :
    (logLine st x).pubCamera = st.pubCamera := rfl

@[simp] theorem logLine_pubScreen (st : CommState) (x : String) :
    (logLine st x).pubScreen = st.pubScreen := rfl

@[simp] theorem logLine_subCamera (st : CommState) (x : String) :
    (logLine st x).subCamera = st.subCamera := rfl

@[simp] theorem logLine_subScreen (st : CommState) (x : String) :
    (logLine st x).subScreen = st.subScreen := rfl

@[simp] theorem logLine_sdkSubscribed (st : CommState) (x : String) :
    (logLine st x).sdkSubscribed = st.sdkSubscribed := rfl

@[simp] theorem logLine_sdkPublished (st : CommState) (x : String) :
    (logLine st x).sdkPublished = st.sdkPublished := rfl

@[simp] theorem logLine_sdkUnpublished (st : CommState) (x : String) :
    (logLine st x).sdkUnpublished = st.sdkUnpublished := rfl

@[simp] theorem triggerEvent_events (st : CommState) (n : String) (d : EventPayload) :
    (triggerEvent st n d).events = st.events ++ [⟨n, d⟩] := rfl

@[simp] theorem triggerEvent_logs (st : CommState) (n : String) (d : EventPayload) :
    (triggerEvent st n d).logs = st.logs := rfl

@[simp] theorem triggerEvent_streamMap (st : CommState) (n : String) (d : EventPayload) :
    (triggerEvent st n d).streamMap = st.streamMap := rfl

@[simp] theorem triggerEvent_active (st : CommState) (n : String) (d : EventPayload) :
    (triggerEvent st n d).active = st.active := rfl

@[simp] theorem triggerEvent_streams (st : CommState) (n : String) (d : EventPayload) :
    (triggerEvent st n d).streams = st.streams := rfl

@[simp] theorem triggerEvent_connectionLimit (st : CommState) (n : String) (d : EventPayload) :
    (triggerEvent st n d).connectionLimit = st.connectionLimit := rfl

@[simp] theorem triggerEvent_pubCamera (st : CommState) (n : String) (d : EventPayload) :
    (triggerEvent st n d).pubCamera = st.pubCamera := rfl

@[simp] theorem triggerEvent_pubScreen (st : CommState) (n : String) (d : EventPayload) :
    (triggerEvent st n d).pubScreen = st.pubScreen := rfl

@[simp] theorem triggerEvent_subCamera (st : CommState) (n : String) (d : EventPayload) :
    (triggerEvent st n d).subCamera = st.subCamera := rfl

@[simp] theorem triggerEvent_subScreen (st : CommState) (n : String) (d : EventPayload) :
    (triggerEvent st n d).subScreen = st.subScreen := rfl

@[simp] theorem triggerEvent_sdkSubscribed (st : CommState) (n : String) (d : EventPayload) :
    (triggerEvent st n d).sdkSubscribed = st.sdkSubscribed := rfl

@[simp] theorem triggerEvent_sdkPublished (st : CommState) (n : String) (d : EventPayload) :
    (triggerEvent st n d).sdkPublished = st.sdkPublished := rfl

@[simp] theorem addSubscriber_streamMap (st : CommState) (sub : Subscriber) :
    (addSubscriber st sub).streamMap = st.streamMap ++ [(sub.streamId, sub.id)] := by
  unfold addSubscriber
  split <;> rfl

@[simp] theorem addSubscriber_active (st : CommState) (sub : Subscriber) :
    (addSubscriber st sub).active = st.active := by
  unfold addSubscriber
  split <;> rfl

@[simp] theorem addSubscriber_events (st : CommState) (sub : Subscriber) :
    (addSubscriber st sub).events = st.events := by
  unfold addSubscriber
  split <;> rfl

@[simp] theorem addSubscriber_logs (st : CommState) (sub : Subscriber) :
    (addSubscriber st sub).logs = st.logs := by
  unfold addSubscriber
  split <;> rfl

@[simp] theorem addSubscriber_streams (st : CommState) (sub : Subscriber) :
    (addSubscriber st sub).streams = st.streams := by
  unfold addSubscriber
  split <;> rfl

@[simp] theorem addSubscriber_connectionLimit (st : CommState) (sub : Subscriber) :
    (addSubscriber st sub).connectionLimit = st.connectionLimit := by
  unfold addSubscriber
  split <;> rfl

@[simp] theorem addSubscriber_pubCamera (st : CommState) (sub : Subscriber) :
    (addSubscriber st sub).pubCamera = st.pubCamera := by
  unfold addSubscriber
  split <;> rfl

@[simp] theorem addSubscriber_pubScreen (st : CommState) (sub : Subscriber) :
    (addSubscriber st sub).pubScreen = st.pubScreen := by
  unfold addSubscriber
  split <;> rfl

@[simp] theorem addSubscriber_sdkSubscribed (st : CommState) (sub : Subscriber) :
    (addSubscriber st sub).sdkSubscribed = st.sdkSubscribed := by
  unfold addSubscriber
  split <;> rfl

@[simp] theorem addSubscriber_sdkPublished (st : CommState) (sub : Subscriber) :
    (addSubscriber st sub).sdkPublished = st.sdkPublished := by
  unfold addSubscriber
  split <;> rfl

/-! ## Helper lemmas -/

theorem alistLookup_append_same (m : List (String × String)) (k v : String)
    (h : alistLookup m k = none) : alistLookup (m ++ [(k, v)]) k = some v := by
  induction m with
  | nil => simp [alistLookup]
  | cons p rest ih =>
    simp only [alistLookup, List.cons_append, List.find?] at h ⊢
    cases hpk : (p.1 == k) with
    | true => simp [hpk] at h
    | false =>
      simp only [hpk] at h ⊢
      exact ih h

theorem alistLookup_append_other (m : List (String × String)) (k v x : String)
    (h : k ≠ x) : alistLookup (m ++ [(k, v)]) x = alistLookup m x := by
  have hne : (k == x) = false := beq_eq_false_iff_ne.mpr h
  induction m with
  | nil => simp [alistLookup, List.find?, hne]
  | cons p rest ih =>
    simp only [alistLookup, List.cons_append, List.find?] at ih ⊢
    cases hpx : (p.1 == x) with
    | true => simp [hpx]
    | false => simp only [hpx]; exact ih

theorem subscribe_streamMap_cases (st : CommState) (s : Stream) (i : String)
    (r : Option OTError) :
    (subscribe st s i r).1.streamMap = st.streamMap ∨
    (subscribe st s i r).1.streamMap = st.streamMap ++ [(s.id, i)] := by
  unfold subscribe
  cases hmem : (alistLookup st.streamMap s.id).isSome with
  | true => left; simp [hmem]
  | false =>
    cases r with
    | some e => left; simp [hmem]
    | none =>
      right
      by_cases hv : s.videoType = "screen" <;> simp [hmem, hv]

theorem subscribe_active (st : CommState) (s : Stream) (i : String)
    (r : Option OTError) : (subscribe st s i r).1.active = st.active := by
  unfold subscribe
  cases hmem : (alistLookup st.streamMap s.id).isSome with
  | true => simp [hmem]
  | false =>
    cases r with
    | some e => simp [hmem]
    | none =>
      by_cases hv : s.videoType = "screen" <;> simp [hmem, hv]

theorem subscribe_resolves_of_ok (st : CommState) (s : Stream) (i : String) :
    (subscribe st s i none).2 = none := by
  unfold subscribe
  cases hmem : (alistLookup st.streamMap s.id).isSome with
  | true => simp [hmem]
  | false =>
    by_cases hv : s.videoType = "screen" <;> simp [hmem, hv]

theorem properCase_camera : properCase "camera" = "Camera" := by decide

theorem properCase_screen : properCase "screen" = "Screen" := by decide

/-- Number of subscribe attempts recorded in the log trail; one is recorded
at the top of every invocation of `subscribe`. -/
def subscribeAttempts (st : CommState) : Nat := st.logs.count "log:subscribe:attempt"

theorem subscribe_attempts (st : CommState) (s : Stream) (i : String)
    (r : Option OTError) :
    subscribeAttempts (subscribe st s i r).1 = subscribeAttempts st + 1 := by
  unfold subscribe
  cases hmem : (alistLookup st.streamMap s.id).isSome with
  | true => simp [hmem, subscribeAttempts]
  | false =>
    cases r with
    | some e => simp [hmem, subscribeAttempts, List.count_append]
    | none =>
      by_cases hv : s.videoType = "screen" <;>
        simp [hmem, hv, subscribeAttempts, List.count_append]

/-! ## Claim theorems -/

/-- C4: after every invocation of `endCall`, regardless of the prior state,
the publisher and subscriber registries are both empty, the active flag is
false, and every camera and screen publisher registered beforehand has been
unpublished from the session. -/
theorem endCall_clears_registries (st : CommState) :
    (endCall st).pubCamera = [] ∧ (endCall st).pubScreen = [] ∧
    (endCall st).subCamera = [] ∧ (endCall st).subScreen = [] ∧
    (endCall st).active = false ∧
    (∀ p, p ∈ st.pubCamera ++ st.pubScreen → p ∈ (endCall st).sdkUnpublished) := by
  refine ⟨rfl, rfl, rfl, rfl, rfl, ?_⟩
  intro p hp
  show p ∈ st.sdkUnpublished ++ st.pubCamera ++ st.pubScreen
  rcases List.mem_append.mp hp with h | h
  · exact List.mem_append.mpr (Or.inl (List.mem_append.mpr (Or.inr h)))
  · exact List.mem_append.mpr (Or.inr h)

/-- Witness for C4 at a state with a camera publisher and a camera
subscriber. -/
theorem endCall_clears_registries_witness :
    (endCall stOnePub).subCamera = [] ∧ (endCall stOnePub).active = false ∧
    "p1" ∈ (endCall stOnePub).sdkUnpublished :=
  ⟨(endCall_clears_registries stOnePub).2.2.1,
   (endCall_clears_registries stOnePub).2.2.2.2.1,
   (endCall_clears_registries stOnePub).2.2.2.2.2 "p1" (by decide)⟩

/-- C5: when publisher creation fails, `publish` rejects with the original
error and emits an `error` event whose message is
"Check your network connection" exactly when the SDK error code is 1010,
and the error's own message otherwise. -/
theorem publish_failure_error_mapping (st : CommState) (e : OTError) :
    (publish st (.error e)).2 = some e ∧
    (publish st (.error e)).1.events = st.events ++
      [⟨"error", .message (if e.code == 1010 then "Check your network connection" else e.message)⟩] ∧
    (e.code = 1010 →
      (⟨"error", .message "Check your network connection"⟩ : Event) ∈
        (publish st (.error e)).1.events) ∧
    (e.code ≠ 1010 →
      (⟨"error", .message e.message⟩ : Event) ∈ (publish st (.error e)).1.events) := by
  refine ⟨rfl, rfl, ?_, ?_⟩
  · intro h
    show (⟨"error", _⟩ : Event) ∈ st.events ++ [⟨"error", .message (if e.code == 1010 then _ else _)⟩]
    simp [h]
  · intro h
    have hb : (e.code == 1010) = false := by
      simp [h]
    show (⟨"error", _⟩ : Event) ∈ st.events ++ [⟨"error", .message (if e.code == 1010 then _ else _)⟩]
    simp [hb]

/-- Witness for C5 at error code 1010 and at another code. -/
theorem publish_failure_error_mapping_witness :
    (publish st0 (.error ⟨1010, "x"⟩)).2 = some ⟨1010, "x"⟩ ∧
    (⟨"error", .message "Check your network connection"⟩ : Event) ∈
      (publish st0 (.error ⟨1010, "x"⟩)).1.events ∧
    (⟨"error", .message "other"⟩ : Event) ∈ (publish st0 (.error ⟨1500, "other"⟩)).1.events :=
  ⟨(publish_failure_error_mapping st0 ⟨1010, "x"⟩).1,
   (publish_failure_error_mapping st0 ⟨1010, "x"⟩).2.2.1 rfl,
   (publish_failure_error_mapping st0 ⟨1500, "other"⟩).2.2.2 (by decide)⟩

/-- C6: every `streamDestroyed` event removes the stream from the registry
and emits `unsubscribeFrom<Type>` with the publisher/subscriber state; for a
screen-type stream the legacy `endViewingSharedScreen` event is additionally
emitted, so both events fire. -/
theorem onStreamDestroyed_events (st : CommState) (s : Stream) :
    (∀ t ∈ (onStreamDestroyed st s).streams, t.id ≠ s.id) ∧
    (⟨"unsubscribeFrom" ++ properCase s.videoType, .pubSub (getPubSub st)⟩ : Event) ∈
      (onStreamDestroyed st s).events ∧
    (s.videoType = "screen" →
      (⟨"endViewingSharedScreen", .empty⟩ : Event) ∈ (onStreamDestroyed st s).events ∧
      (⟨"unsubscribeFromScreen", .pubSub (getPubSub st)⟩ : Event) ∈
        (onStreamDestroyed st s).events) := by
  unfold onStreamDestroyed
  by_cases hv : s.videoType = "screen"
  · refine ⟨?_, ?_, fun _ => ⟨?_, ?_⟩⟩ <;>
      simp [hv, removeStream, getPubSub, properCase_screen, List.mem_filter]
  · refine ⟨?_, ?_, fun h => absurd h hv⟩ <;>
      simp [hv, removeStream, getPubSub, List.mem_filter]

/-- Witness for C6 at a screen-type stream destruction. -/
theorem onStreamDestroyed_events_witness :
    (⟨"endViewingSharedScreen", .empty⟩ : Event) ∈
      (onStreamDestroyed stOneStream ⟨"s2", "screen"⟩).events ∧
    (⟨"unsubscribeFromScreen", .pubSub (getPubSub stOneStream)⟩ : Event) ∈
      (onStreamDestroyed stOneStream ⟨"s2", "screen"⟩).events :=
  (onStreamDestroyed_events stOneStream ⟨"s2", "screen"⟩).2.2 rfl

/-- C7: a `streamCreated` event triggers a subscribe call exactly when the
active flag and the auto-subscribe flag are both true; in every other case
the handler leaves the state untouched. -/
theorem onStreamCreated_triggers_iff (st : CommState) (s : Stream) (i : String)
    (r : Option OTError) :
    subscribeAttempts (onStreamCreated st s i r) =
      subscribeAttempts st + (if st.active && st.autoSubscribe then 1 else 0) ∧
    (¬(st.active = true ∧ st.autoSubscribe = true) → onStreamCreated st s i r = st) := by
  constructor
  · unfold onStreamCreated
    by_cases h : st.active && st.autoSubscribe
    · simp [h, subscribe_attempts]
    · simp [h]
  · intro h
    have hb : (st.active && st.autoSubscribe) = false := by
      cases ha : st.active <;> cases hs : st.autoSubscribe <;> simp_all
    unfold onStreamCreated
    simp [hb]

/-- Witness for C7: with auto-subscribe disabled, a `streamCreated` event
while active does not change the state. -/
theorem onStreamCreated_triggers_iff_witness :
    onStreamCreated { stOnePub with autoSubscribe := false } ⟨"s9", "camera"⟩ "i9" none =
      { stOnePub with autoSubscribe := false } :=
  (onStreamCreated_triggers_iff { stOnePub with autoSubscribe := false }
    ⟨"s9", "camera"⟩ "i9" none).2 (by decide)

theorem foldl_logMissing_logs (l : List (String × Bool)) (st : CommState) :
    (l.foldl logMissing st).logs = st.logs ++
      (l.filter (fun p => !p.2)).map (fun p => "error:" ++ p.1 ++ " is a required option.") := by
  induction l generalizing st with
  | nil => simp
  | cons p rest ih =>
    cases hp : p.2 with
    | true => simp [List.foldl_cons, logMissing, hp, ih]
    | false => simp [List.foldl_cons, logMissing, hp, ih, logLine]

theorem foldl_logMissing_listeners (l : List (String × Bool)) (st : CommState) :
    (l.foldl logMissing st).listeners = st.listeners := by
  induction l generalizing st with
  | nil => rfl
  | cons p rest ih =>
    cases hp : p.2 with
    | true => simp [List.foldl_cons, logMissing, hp, ih]
    | false => simp [List.foldl_cons, logMissing, hp, ih, logLine]

theorem init_connectionLimit (st : CommState) (o : Options) :
    (init st o).1.connectionLimit =
      (match o.connectionLimit with
       | some n => if n == 0 then none else some n
       | none => none) := rfl

theorem init_limit_pos (st : CommState) (o : Options) (N : Nat)
    (h : (init st o).1.connectionLimit = some N) : 0 < N := by
  rw [init_connectionLimit] at h
  cases hc : o.connectionLimit with
  | none => rw [hc] at h; exact absurd h (by simp)
  | some n =>
    rw [hc] at h
    by_cases hn : n = 0
    · simp [hn] at h
    · have hb : (n == 0) = false := by simp [hn]
      simp [hb] at h
      omega

theorem ableToJoin_logLine (st : CommState) (x : String) :
    ableToJoin (logLine st x) = ableToJoin st := rfl

theorem ableToJoin_none (st : CommState) (h : st.connectionLimit = none) :
    ableToJoin st = true := by
  unfold ableToJoin
  rw [h]

theorem ableToJoin_some (st : CommState) (N : Nat) (h : st.connectionLimit = some N)
    (hN : N ≠ 0) : ableToJoin st = decide ((cameraStreams st).length < N) := by
  unfold ableToJoin
  rw [h]
  have hb : (N == 0) = false := by simp [hN]
  simp [hb]

theorem startCall_rejects_limit (st : CommState) (p : Except OTError String)
    (m : String → String) (r : String → Option OTError) (h : ableToJoin st = false) :
    startCall st p m r =
      (logLine (triggerEvent (logLine st "log:startCall:attempt") "error"
          (.message "Session has reached its connection limit")) "log:startCall:fail",
       .rejected "Session has reached its connection limit") := by
  unfold startCall
  simp [ableToJoin_logLine, h]

theorem startCall_not_rejected (st : CommState) (p : Except OTError String)
    (m : String → String) (r : String → Option OTError) (h : ableToJoin st = true)
    (msg : String) : (startCall st p m r).2 ≠ CallOutcome.rejected msg := by
  unfold startCall
  simp only [ableToJoin_logLine, h, Bool.not_true, Bool.false_eq_true, if_false]
  cases hp : (publish (logLine st "log:startCall:attempt") p).2 with
  | some e => simp
  | none =>
    by_cases hsa :
      (subscribeAll (publish (logLine st "log:startCall:attempt") p).1
        (getStreams (publish (logLine st "log:startCall:attempt") p).1) m r).2 <;>
      simp [hsa]

/-- C8: `init` logs an error for every missing required field among
`session`, `publishers`, `subscribers`, `streams`, `accPack` but neither
throws nor rejects — it still assigns the configuration from the fields that
are present, registers the stream event listeners, and resolves. -/
theorem init_fails_open (st : CommState) (o : Options) :
    (init st o).2 = none ∧
    "streamCreated" ∈ (init st o).1.listeners ∧
    "streamDestroyed" ∈ (init st o).1.listeners ∧
    (init st o).1.logs = st.logs ++
      ((requiredPresence o).filter (fun p => !p.2)).map
        (fun p => "error:" ++ p.1 ++ " is a required option.") ∧
    (init st o).1.session = o.session ∧
    (init st o).1.accPack = o.accPack ∧
    (init st o).1.streamContainers = o.streamContainers ∧
    (init st o).1.callProperties = o.callProperties.getD defaultCallProperties ∧
    (init st o).1.screenProperties =
      o.screenProperties.getD { defaultCallProperties with videoSource := some "window" } ∧
    (init st o).1.autoSubscribe = o.autoSubscribe.getD true := by
  refine ⟨rfl, ?_, ?_, ?_, rfl, rfl, rfl, rfl, rfl, rfl⟩
  · show "streamCreated" ∈ ((requiredPresence o).foldl logMissing st).listeners ++
      ["streamCreated", "streamDestroyed"]
    simp
  · show "streamDestroyed" ∈ ((requiredPresence o).foldl logMissing st).listeners ++
      ["streamCreated", "streamDestroyed"]
    simp
  · show ((requiredPresence o).foldl logMissing st).logs = _
    exact foldl_logMissing_logs _ _

/-- C10: a connection limit configured as 0 is treated as no limit at all:
`init` stores every falsy `connectionLimit` option as null, `ableToJoin`
returns true whenever no limit is stored, and under a zero-limit option
`startCall` never rejects. -/
theorem connectionLimit_zero_is_no_limit :
    (∀ (st : CommState) (o : Options),
       o.connectionLimit = none ∨ o.connectionLimit = some 0 →
       (init st o).1.connectionLimit = none) ∧
    (∀ st : CommState, st.connectionLimit = none → ableToJoin st = true) ∧
    (∀ (st : CommState) (o : Options) (p : Except OTError String)
       (m : String → String) (r : String → Option OTError) (msg : String),
       o.connectionLimit = some 0 →
       (startCall (init st o).1 p m r).2 ≠ CallOutcome.rejected msg) := by
  have hstore : ∀ (st : CommState) (o : Options),
      o.connectionLimit = none ∨ o.connectionLimit = some 0 →
      (init st o).1.connectionLimit = none := by
    intro st o h
    rw [init_connectionLimit]
    rcases h with h | h <;> rw [h]
    rfl
  refine ⟨hstore, fun st h => ableToJoin_none st h, ?_⟩
  intro st o p m r msg h
  exact startCall_not_rejected _ _ _ _
    (ableToJoin_none _ (hstore st o (Or.inr h))) msg

/-- C2: when the state was configured by `init` with a stored connection
limit N and at least N camera streams are registered, `startCall` rejects
with "Session has reached its connection limit", emits an `error` event, and
neither publishes to the session nor registers a publisher; when the camera
count is below N, or no limit is stored, the limit check passes. -/
theorem startCall_connection_limit (st : CommState) (o : Options)
    (p : Except OTError String) (m : String → String) (r : String → Option OTError) :
    (∀ N, (init st o).1.connectionLimit = some N →
       N ≤ (cameraStreams (init st o).1).length →
       (startCall (init st o).1 p m r).2 =
         CallOutcome.rejected "Session has reached its connection limit" ∧
       (⟨"error", .message "Session has reached its connection limit"⟩ : Event) ∈
         (startCall (init st o).1 p m r).1.events ∧
       (startCall (init st o).1 p m r).1.sdkPublished = (init st o).1.sdkPublished ∧
       (startCall (init st o).1 p m r).1.pubCamera = (init st o).1.pubCamera) ∧
    (∀ N, (init st o).1.connectionLimit = some N →
       (cameraStreams (init st o).1).length < N → ableToJoin (init st o).1 = true) ∧
    ((init st o).1.connectionLimit = none → ableToJoin (init st o).1 = true) := by
  refine ⟨?_, ?_, fun h => ableToJoin_none _ h⟩
  · intro N hN hle
    have hpos := init_limit_pos st o N hN
    have hfalse : ableToJoin (init st o).1 = false := by
      rw [ableToJoin_some _ N hN (Nat.pos_iff_ne_zero.mp hpos)]
      simp [Nat.not_lt.mpr hle]
    rw [startCall_rejects_limit _ _ _ _ hfalse]
    refine ⟨rfl, ?_, rfl, rfl⟩
    simp
  · intro N hN hlt
    rw [ableToJoin_some _ N hN (Nat.pos_iff_ne_zero.mp (init_limit_pos st o N hN))]
    simp [hlt]

/-- Witness for C2: limit 1 with one camera stream already present makes
`startCall` reject without publishing. -/
theorem startCall_connection_limit_witness :
    (startCall (init stOneStream exOptions).1 (.ok "p1") (fun i => i) (fun _ => none)).2 =
      CallOutcome.rejected "Session has reached its connection limit" ∧
    (startCall (init stOneStream exOptions).1 (.ok "p1") (fun i => i) (fun _ => none)).1.sdkPublished =
      (init stOneStream exOptions).1.sdkPublished :=
  ⟨((startCall_connection_limit stOneStream exOptions (.ok "p1") (fun i => i)
      (fun _ => none)).1 1 rfl (by decide)).1,
   ((startCall_connection_limit stOneStream exOptions (.ok "p1") (fun i => i)
      (fun _ => none)).1 1 rfl (by decide)).2.2.1⟩

/-- An options object configuring a connection limit of 0. -/
def optsZero : Options := { exOptions with connectionLimit := some 0 }

/-- Witness for C10: limit 0 is stored as null and a state full of camera
streams still passes the check. -/
theorem connectionLimit_zero_is_no_limit_witness :
    (init stOneStream optsZero).1.connectionLimit = none ∧
    (startCall (init stOneStream optsZero).1 (.ok "p1") (fun i => i) (fun _ => none)).2 ≠
      CallOutcome.rejected "Session has reached its connection limit" :=
  ⟨connectionLimit_zero_is_no_limit.1 stOneStream optsZero (Or.inr rfl),
   connectionLimit_zero_is_no_limit.2.2 stOneStream optsZero (.ok "p1") (fun i => i)
     (fun _ => none) "Session has reached its connection limit" rfl⟩

theorem subscribe_skips_when_mapped (st : CommState) (s : Stream) (i : String)
    (r : Option OTError) (h : (alistLookup st.streamMap s.id).isSome) :
    subscribe st s i r = (logLine st "log:subscribe:attempt", none) := by
  unfold subscribe
  simp [h]

theorem subscribe_success_streamMap (st : CommState) (s : Stream) (i : String)
    (h : alistLookup st.streamMap s.id = none) :
    (subscribe st s i none).1.streamMap = st.streamMap ++ [(s.id, i)] := by
  unfold subscribe
  have hb : (alistLookup st.streamMap s.id).isSome = false := by simp [h]
  by_cases hv : s.videoType = "screen" <;> simp [hb, hv]

theorem subscribe_success_sdkSubscribed (st : CommState) (s : Stream) (i : String)
    (h : alistLookup st.streamMap s.id = none) :
    (subscribe st s i none).1.sdkSubscribed = st.sdkSubscribed ++ [s.id] := by
  unfold subscribe
  have hb : (alistLookup st.streamMap s.id).isSome = false := by simp [h]
  by_cases hv : s.videoType = "screen" <;> simp [hb, hv]

theorem subscribe_fail_of_unmapped (st : CommState) (s : Stream) (i : String)
    (e : OTError) (h : alistLookup st.streamMap s.id = none) :
    (subscribe st s i (some e)).2 = some e := by
  unfold subscribe
  have hb : (alistLookup st.streamMap s.id).isSome = false := by simp [h]
  simp [hb]

/-- C3: `subscribe` is idempotent by stream id.  A stream whose id is in the
stream map resolves immediately: no SDK call, no event, no registry change —
only the attempt log line.  Subscribing twice to the same (initially
unmapped) stream makes exactly one SDK subscribe call, emits no further
event on the second call, and both calls resolve. -/
theorem subscribe_idempotent_by_id :
    (∀ (st : CommState) (s : Stream) (i : String) (r : Option OTError),
       (alistLookup st.streamMap s.id).isSome →
       subscribe st s i r = (logLine st "log:subscribe:attempt", none)) ∧
    (∀ (st : CommState) (s : Stream) (i j : String) (r : Option OTError),
       alistLookup st.streamMap s.id = none →
       (subscribe st s i none).2 = none ∧
       (subscribe (subscribe st s i none).1 s j r).2 = none ∧
       (subscribe (subscribe st s i none).1 s j r).1.sdkSubscribed =
         st.sdkSubscribed ++ [s.id] ∧
       (subscribe (subscribe st s i none).1 s j r).1.events =
         (subscribe st s i none).1.events) := by
  have hskip := subscribe_skips_when_mapped
  refine ⟨hskip, ?_⟩
  intro st s i j r h
  have hmapped : (alistLookup (subscribe st s i none).1.streamMap s.id).isSome := by
    rw [subscribe_success_streamMap st s i h, alistLookup_append_same _ _ _ h]
    rfl
  have h2 := hskip (subscribe st s i none).1 s j r hmapped
  refine ⟨subscribe_resolves_of_ok st s i, ?_, ?_, ?_⟩
  · rw [h2]
  · rw [h2]
    show (subscribe st s i none).1.sdkSubscribed = _
    exact subscribe_success_sdkSubscribed st s i h
  · rw [h2]
    rfl

/-- Witness for C3: a second subscribe to the already-subscribed stream of
`stOneStream` leaves the SDK call trail at one entry. -/
theorem subscribe_idempotent_by_id_witness :
    (subscribe (subscribe stOneStream ⟨"s1", "camera"⟩ "i1" none).1
        ⟨"s1", "camera"⟩ "i2" none).2 = none ∧
    (subscribe (subscribe stOneStream ⟨"s1", "camera"⟩ "i1" none).1
        ⟨"s1", "camera"⟩ "i2" none).1.sdkSubscribed = ["s1"] :=
  ⟨(subscribe_idempotent_by_id.2 stOneStream ⟨"s1", "camera"⟩ "i1" "i2" none rfl).2.1,
   (subscribe_idempotent_by_id.2 stOneStream ⟨"s1", "camera"⟩ "i1" "i2" none rfl).2.2.1⟩

/-! ## Lemmas about the initial subscriptions of startCall -/

/-- Events named startCall among a trail of emitted events. -/
def startCallEvents (evs : List Event) : List Event :=
  evs.filter (fun ev => ev.name == "startCall")

theorem subscribeTo_ne_startCall (y : String) :
    (("subscribeTo" ++ y) == "startCall") = false := by
  apply beq_eq_false_iff_ne.mpr
  intro hEq
  have hlen := congrArg String.length hEq
  rw [String.length_append] at hlen
  have h1 : ("subscribeTo" : String).length = 11 := by decide
  have h2 : ("startCall" : String).length = 9 := by decide
  omega

theorem viewing_ne_startCall :
    (("startViewingSharedScreen" : String) == "startCall") = false := by decide

theorem subscribe_startCallEvents (st : CommState) (s : Stream) (i : String)
    (r : Option OTError) :
    startCallEvents (subscribe st s i r).1.events = startCallEvents st.events := by
  unfold subscribe
  cases hmem : (alistLookup st.streamMap s.id).isSome with
  | true => simp [hmem]
  | false =>
    cases r with
    | some e => simp [hmem]
    | none =>
      by_cases hv : s.videoType = "screen" <;>
        simp [hmem, hv, startCallEvents, List.filter_append,
          subscribeTo_ne_startCall, viewing_ne_startCall]

theorem subscribeAll_startCallEvents (streams : List Stream) (st : CommState)
    (m : String → String) (r : String → Option OTError) :
    startCallEvents (subscribeAll st streams m r).1.events = startCallEvents st.events := by
  induction streams generalizing st with
  | nil => rfl
  | cons t rest ih =>
    unfold subscribeAll
    rw [ih, subscribe_startCallEvents]

theorem subscribeAll_active (streams : List Stream) (st : CommState)
    (m : String → String) (r : String → Option OTError) :
    (subscribeAll st streams m r).1.active = st.active := by
  induction streams generalizing st with
  | nil => rfl
  | cons t rest ih =>
    unfold subscribeAll
    rw [ih, subscribe_active]

theorem subscribeAll_attempts (streams : List Stream) (st : CommState)
    (m : String → String) (r : String → Option OTError) :
    subscribeAttempts (subscribeAll st streams m r).1 =
      subscribeAttempts st + streams.length := by
  induction streams generalizing st with
  | nil => rfl
  | cons t rest ih =>
    unfold subscribeAll
    rw [ih, subscribe_attempts]
    simp [Nat.add_assoc, Nat.add_comm 1 rest.length]

theorem subscribeAll_ok_of_all_none (streams : List Stream) (st : CommState)
    (m : String → String) (r : String → Option OTError)
    (h : ∀ s ∈ streams, r s.id = none) :
    (subscribeAll st streams m r).2 = true := by
  induction streams generalizing st with
  | nil => rfl
  | cons t rest ih =>
    unfold subscribeAll
    have ht := h t (List.mem_cons_self t rest)
    rw [ht]
    simp [subscribe_resolves_of_ok, ih _ (fun s hs => h s (List.mem_cons_of_mem t hs))]

theorem subscribeAll_fail (streams : List Stream) (st : CommState)
    (m : String → String) (r : String → Option OTError) (x : String)
    (hx : alistLookup st.streamMap x = none) (hr : r x ≠ none)
    (hmem : ∃ s ∈ streams, s.id = x) :
    (subscribeAll st streams m r).2 = false := by
  induction streams generalizing st with
  | nil => simp at hmem
  | cons t rest ih =>
    unfold subscribeAll
    by_cases hid : t.id = x
    · obtain ⟨e, he⟩ : ∃ e, r t.id = some e := by
        rw [hid]
        cases hrx : r x with
        | none => exact absurd hrx hr
        | some e => exact ⟨e, rfl⟩
      have hux : alistLookup st.streamMap t.id = none := by rw [hid]; exact hx
      have hfail : (subscribe st t (m t.id) (r t.id)).2 = some e := by
        rw [he]
        exact subscribe_fail_of_unmapped st t (m t.id) e hux
      simp [hfail]
    · have hx2 : alistLookup (subscribe st t (m t.id) (r t.id)).1.streamMap x = none := by
        rcases subscribe_streamMap_cases st t (m t.id) (r t.id) with hc | hc
        · rw [hc]; exact hx
        · rw [hc, alistLookup_append_other _ _ _ _ hid]; exact hx
      have hmem2 : ∃ s ∈ rest, s.id = x := by
        rcases hmem with ⟨s, hs, hsx⟩
        rcases List.mem_cons.mp hs with hst | hsr
        · exact absurd (hst ▸ hsx) hid
        · exact ⟨s, hsr, hsx⟩
      simp [ih _ hx2 hmem2]

/-- With the limit check passed, `startCall` on a successful publish reduces
to the initial-subscription phase followed by the resolve-or-hang branch. -/
theorem startCall_ok_reduce (st : CommState) (pid : String) (m : String → String)
    (r : String → Option OTError) (h : ableToJoin st = true) :
    startCall st (.ok pid) m r =
      (if (subscribeAll (publish (logLine st "log:startCall:attempt") (.ok pid)).1
            (publish (logLine st "log:startCall:attempt") (.ok pid)).1.streams m r).2 then
        ({ triggerEvent
              (subscribeAll (publish (logLine st "log:startCall:attempt") (.ok pid)).1
                (publish (logLine st "log:startCall:attempt") (.ok pid)).1.streams m r).1
              "startCall"
              (.pubSub (getPubSub
                (subscribeAll (publish (logLine st "log:startCall:attempt") (.ok pid)).1
                  (publish (logLine st "log:startCall:attempt") (.ok pid)).1.streams m r).1)) with
            active := true },
         .resolved (getPubSub
            (subscribeAll (publish (logLine st "log:startCall:attempt") (.ok pid)).1
              (publish (logLine st "log:startCall:attempt") (.ok pid)).1.streams m r).1))
      else
        (logLine
          (subscribeAll (publish (logLine st "log:startCall:attempt") (.ok pid)).1
            (publish (logLine st "log:startCall:attempt") (.ok pid)).1.streams m r).1
          "message:Failed to subscribe to all existing streams",
         .pending)) := by
  unfold startCall
  simp only [ableToJoin_logLine, h, Bool.not_true, Bool.false_eq_true, if_false]
  rfl

theorem attempts_logLine_ne (st : CommState) (x : String)
    (h : (x == "log:subscribe:attempt") = false) :
    subscribeAttempts (logLine st x) = subscribeAttempts st := by
  simp [subscribeAttempts, List.count_append, List.count_cons, List.count_nil, h]

theorem publish_ok_attempts (st : CommState) (pid : String) :
    subscribeAttempts (publish st (.ok pid)).1 = subscribeAttempts st := by
  show subscribeAttempts (logLine _ "log:startCall:success") = _
  rw [attempts_logLine_ne _ _ (by decide)]
  rfl

/-- The state after `startCall`'s publish and all its initial subscriptions
have settled. -/
def initialSubsState (st : CommState) (pid : String) (m : String → String)
    (r : String → Option OTError) : CommState :=
  (subscribeAll (publish (logLine st "log:startCall:attempt") (.ok pid)).1
    (publish (logLine st "log:startCall:attempt") (.ok pid)).1.streams m r).1

/-- Whether all of `startCall`'s initial subscriptions succeeded
(`Promise.all` resolved). -/
def initialSubsOk (st : CommState) (pid : String) (m : String → String)
    (r : String → Option OTError) : Bool :=
  (subscribeAll (publish (logLine st "log:startCall:attempt") (.ok pid)).1
    (publish (logLine st "log:startCall:attempt") (.ok pid)).1.streams m r).2

theorem startCall_ok_resolved (st : CommState) (pid : String) (m : String → String)
    (r : String → Option OTError) (h : ableToJoin st = true)
    (hsa : initialSubsOk st pid m r = true) :
    startCall st (.ok pid) m r =
      ({ triggerEvent (initialSubsState st pid m r) "startCall"
           (.pubSub (getPubSub (initialSubsState st pid m r))) with active := true },
       .resolved (getPubSub (initialSubsState st pid m r))) := by
  have hsa2 : (subscribeAll (publish (logLine st "log:startCall:attempt") (.ok pid)).1
      (publish (logLine st "log:startCall:attempt") (.ok pid)).1.streams m r).2 = true := hsa
  rw [startCall_ok_reduce st pid m r h, if_pos hsa2]
  rfl

theorem startCall_ok_pending (st : CommState) (pid : String) (m : String → String)
    (r : String → Option OTError) (h : ableToJoin st = true)
    (hsa : initialSubsOk st pid m r = false) :
    startCall st (.ok pid) m r =
      (logLine (initialSubsState st pid m r)
        "message:Failed to subscribe to all existing streams",
       .pending) := by
  have hsa2 : (subscribeAll (publish (logLine st "log:startCall:attempt") (.ok pid)).1
      (publish (logLine st "log:startCall:attempt") (.ok pid)).1.streams m r).2 = false := hsa
  rw [startCall_ok_reduce st pid m r h,
    if_neg (by rw [hsa2]; exact Bool.false_ne_true)]
  rfl

theorem initialSubsState_attempts (st : CommState) (pid : String)
    (m : String → String) (r : String → Option OTError) :
    subscribeAttempts (initialSubsState st pid m r) =
      subscribeAttempts st + st.streams.length := by
  unfold initialSubsState
  rw [subscribeAll_attempts, publish_ok_attempts, attempts_logLine_ne _ _ (by decide)]
  rfl

theorem initialSubsState_active (st : CommState) (pid : String)
    (m : String → String) (r : String → Option OTError) :
    (initialSubsState st pid m r).active = st.active := by
  unfold initialSubsState
  rw [subscribeAll_active]
  rfl

theorem initialSubsState_startCallEvents (st : CommState) (pid : String)
    (m : String → String) (r : String → Option OTError) :
    startCallEvents (initialSubsState st pid m r).events =
      startCallEvents st.events := by
  unfold initialSubsState
  rw [subscribeAll_startCallEvents]
  rfl

theorem initialSubsOk_of_all_none (st : CommState) (pid : String)
    (m : String → String) (r : String → Option OTError)
    (h : ∀ s ∈ st.streams, r s.id = none) : initialSubsOk st pid m r = true :=
  subscribeAll_ok_of_all_none _ _ _ _ (fun s hs => h s hs)

theorem initialSubsOk_false_of_fail (st : CommState) (pid : String)
    (m : String → String) (r : String → Option OTError) (s : Stream)
    (hs : s ∈ st.streams) (hmap : alistLookup st.streamMap s.id = none)
    (hr : r s.id ≠ none) : initialSubsOk st pid m r = false :=
  subscribeAll_fail _ _ _ _ s.id hmap hr ⟨s, hs, rfl⟩

theorem attempts_triggerEvent_active (st : CommState) (n : String) (d : EventPayload) :
    subscribeAttempts { triggerEvent st n d with active := true } =
      subscribeAttempts st := rfl

/-- C9: when the connection-limit check passes but the local publish
rejects, the promise returned by `startCall` never settles — the publish
rejection is not propagated and the active flag is unchanged. -/
theorem startCall_publish_rejection_pending (st : CommState) (e : OTError)
    (m : String → String) (r : String → Option OTError) (h : ableToJoin st = true) :
    (startCall st (.error e) m r).2 = CallOutcome.pending ∧
    (startCall st (.error e) m r).1.active = st.active := by
  unfold startCall
  simp only [ableToJoin_logLine, h, Bool.not_true, Bool.false_eq_true, if_false]
  exact ⟨rfl, rfl⟩

/-- Witness for C9 with a failing publisher creation on an empty session. -/
theorem startCall_publish_rejection_pending_witness :
    (startCall st0 (.error ⟨1010, "x"⟩) (fun i => i) (fun _ => none)).2 =
      CallOutcome.pending ∧
    (startCall st0 (.error ⟨1010, "x"⟩) (fun i => i) (fun _ => none)).1.active =
      st0.active :=
  startCall_publish_rejection_pending st0 ⟨1010, "x"⟩ (fun i => i) (fun _ => none)
    (by decide)

/-- Counterexample to C1 as stated: with one known remote stream whose
subscription fails, the promise returned by `startCall` never settles and no
event at all is emitted — the call start does not complete. -/
theorem startCall_partial_failure_counterexample :
    (startCall stOneStream (.ok "p1") (fun i => i ++ "-sub")
        (fun _ => some ⟨1500, "boom"⟩)).2 = CallOutcome.pending ∧
    (startCall stOneStream (.ok "p1") (fun i => i ++ "-sub")
        (fun _ => some ⟨1500, "boom"⟩)).1.events = [] := by
  decide

/-- C1 (amended): when the limit check passes and the publish succeeds, one
subscription is attempted for every known stream; the aggregate `startCall`
event fires and the promise resolves with the aggregated state only when
every initial subscription succeeds; if any initial subscription fails, the
failure is only logged: no `startCall` event is emitted, the promise never
settles, and the active flag is unchanged. -/
theorem startCall_requires_all_subscriptions (st : CommState) (pid : String)
    (m : String → String) (r : String → Option OTError) (h : ableToJoin st = true) :
    subscribeAttempts (startCall st (.ok pid) m r).1 =
      subscribeAttempts st + st.streams.length ∧
    ((∀ s ∈ st.streams, r s.id = none) →
       ∃ p, (startCall st (.ok pid) m r).2 = CallOutcome.resolved p ∧
         (⟨"startCall", .pubSub p⟩ : Event) ∈ (startCall st (.ok pid) m r).1.events ∧
         (startCall st (.ok pid) m r).1.active = true) ∧
    ((∃ s ∈ st.streams, alistLookup st.streamMap s.id = none ∧ r s.id ≠ none) →
       (startCall st (.ok pid) m r).2 = CallOutcome.pending ∧
       "message:Failed to subscribe to all existing streams" ∈
         (startCall st (.ok pid) m r).1.logs ∧
       startCallEvents (startCall st (.ok pid) m r).1.events =
         startCallEvents st.events ∧
       (startCall st (.ok pid) m r).1.active = st.active) := by
  refine ⟨?_, ?_, ?_⟩
  · cases hsa : initialSubsOk st pid m r with
    | true =>
      rw [startCall_ok_resolved st pid m r h hsa]
      show subscribeAttempts { triggerEvent (initialSubsState st pid m r) _ _ with
        active := true } = _
      rw [attempts_triggerEvent_active, initialSubsState_attempts]
    | false =>
      rw [startCall_ok_pending st pid m r h hsa]
      show subscribeAttempts (logLine (initialSubsState st pid m r) _) = _
      rw [attempts_logLine_ne _ _ (by decide), initialSubsState_attempts]
  · intro hall
    rw [startCall_ok_resolved st pid m r h (initialSubsOk_of_all_none st pid m r hall)]
    refine ⟨_, rfl, ?_, rfl⟩
    show _ ∈ (initialSubsState st pid m r).events ++ [(⟨"startCall", _⟩ : Event)]
    simp
  · rintro ⟨s, hs, hmapnone, hrs⟩
    rw [startCall_ok_pending st pid m r h
      (initialSubsOk_false_of_fail st pid m r s hs hmapnone hrs)]
    refine ⟨rfl, ?_, ?_, ?_⟩
    · show _ ∈ (initialSubsState st pid m r).logs ++
        ["message:Failed to subscribe to all existing streams"]
      simp
    · show startCallEvents (initialSubsState st pid m r).events = _
      rw [initialSubsState_startCallEvents]
    · show (initialSubsState st pid m r).active = st.active
      rw [initialSubsState_active]

/-- Witness for C1 (amended): with one known stream and a succeeding
subscription, `startCall` resolves and fires the aggregate event. -/
theorem startCall_requires_all_subscriptions_witness :
    ∃ p, (startCall stOneStream (.ok "p1") (fun i => i ++ "-sub") (fun _ => none)).2 =
        CallOutcome.resolved p ∧
      (⟨"startCall", .pubSub p⟩ : Event) ∈
        (startCall stOneStream (.ok "p1") (fun i => i ++ "-sub") (fun _ => none)).1.events ∧
      (startCall stOneStream (.ok "p1") (fun i => i ++ "-sub") (fun _ => none)).1.active =
        true :=
  (startCall_requires_all_subscriptions stOneStream "p1" (fun i => i ++ "-sub")
    (fun _ => none) (by decide)).2.1 (fun s _ => rfl)

end Communication
